import Mathlib

/-!
# ToDo backend: shallow embedding

A shallow embedding of the ToDo task-tracking backend (FastAPI + SQLAlchemy):

* `src/api/models/task.py` — tables `tasks(id PK, title, due_date)` and
  `dones(id PK/FK -> tasks.id)`, with `cascade="all, delete"` from Task to Done.
* `src/api/cruds/task.py` — `create_task`.
* `src/api/cruds/done.py` — `get_done`, `create_done`, `delete_done`.
* `src/api/routers/task.py` — handlers `list_tasks`, `create_task`,
  `update_task`, `delete_task`.

The Task-store functions `get_task`, `get_task_with_done`, `update_task`,
`delete_task`, the done router (PUT/DELETE `/tasks/{id}/done`) and the
Pydantic schema `api/schemas/task.py` are called from the sources above but
their files are not part of the source tree; those are modelled from the
spec, and each such definition says so in its doc comment.

The database is modelled as explicit state: a list of Task rows, a list of
Done rows and the next value of the `tasks` autoincrement primary key.
-/

namespace ToDo

/-! ## Calendar dates (the `due_date` column, SQL `DATE`) -/

/-- A calendar date, the value stored in the `tasks.due_date` column. -/
structure Date where
  year : Nat
  month : Nat
  day : Nat
deriving DecidableEq, Repr

/-- Gregorian leap-year rule. -/
def isLeapYear (y : Nat) : Bool :=
  (y % 4 == 0 && y % 100 != 0) || (y % 400 == 0)

/-- Number of days in month `m` of year `y`. -/
def daysInMonth (y m : Nat) : Nat :=
  if m == 2 then (if isLeapYear y then 29 else 28)
  else if m == 4 || m == 6 || m == 9 || m == 11 then 30
  else 31

/-- A real calendar date: month in 1..12, day in 1..days-of-that-month. -/
def Date.valid (d : Date) : Bool :=
  1 ≤ d.month && d.month ≤ 12 && 1 ≤ d.day && d.day ≤ daysInMonth d.year d.month

/-- Split a character list at every `-` (the ISO date separator). -/
def splitOnDash : List Char → List (List Char)
  | [] => [[]]
  | c :: rest =>
    if c = '-' then [] :: splitOnDash rest
    else
      match splitOnDash rest with
      | [] => [[c]]
      | h :: t => (c :: h) :: t

/-- Value of a list of decimal digit characters. -/
def digitsToNat (cs : List Char) : Nat :=
  cs.foldl (fun n c => n * 10 + (c.toNat - '0'.toNat)) 0

/-- All characters are decimal digits. -/
def allDigits (cs : List Char) : Bool :=
  cs.all (fun c => c.isDigit)

/-- Modelled from the spec: the date parsing performed by the Pydantic
field `due_date: datetime.date` of the schema `api/schemas/task.py`, which
is not in the source tree.  Per the spec a `due_date` string "must parse as
a real calendar date in ISO `YYYY-MM-DD` form — reject otherwise"
(`"2024-12-01"` accepted; `"2024-12-32"`, `"2024/12/01"`, `"20241201"`
rejected). -/
def parseDate (s : String) : Option Date :=
  match splitOnDash s.toList with
  | [ys, ms, ds] =>
    if ys.length = 4 && ms.length = 2 && ds.length = 2
        && allDigits ys && allDigits ms && allDigits ds then
      let d : Date := ⟨digitsToNat ys, digitsToNat ms, digitsToNat ds⟩
      if d.valid then some d else none
    else none
  | _ => none

/-! ## Data model (`src/api/models/task.py`) -/

/-- A row of the `tasks` table: `id` (integer primary key, autoincrement),
`title` (VARCHAR(1024)), `due_date` (DATE, nullable). -/
structure Task where
  id : Nat
  title : String
  due_date : Option Date
deriving DecidableEq, Repr

/-- A row of the `dones` table: only `id`, the primary key, equal to the id
of the Task it marks (FK -> tasks.id). -/
structure Done where
  id : Nat
deriving DecidableEq, Repr

/-- The database state: the two tables plus the next value of the `tasks`
autoincrement primary key. -/
structure DB where
  tasks : List Task
  dones : List Done
  nextId : Nat
deriving DecidableEq, Repr

/-- The freshly created database: both tables empty, ids start at 1. -/
def DB.empty : DB := ⟨[], [], 1⟩

/-- A Done row with this task id is present (`done` flag of the listing). -/
def done_exists (db : DB) (task_id : Nat) : Bool :=
  db.dones.any (fun d => d.id == task_id)

/-- A Task row with this id is present. -/
def task_exists (db : DB) (task_id : Nat) : Bool :=
  db.tasks.any (fun t => t.id == task_id)

/-! ## Schemas (`api/schemas/task.py`, modelled from the spec) -/

/-- The validated create/update input `{title, due_date?}`
(schema `TaskCreate` after Pydantic validation). -/
structure TaskCreate where
  title : String
  due_date : Option Date
deriving DecidableEq, Repr

/-- The raw JSON body of POST `/tasks`: `title` plus the `due_date` string
as sent by the client, before validation. -/
structure TaskCreateBody where
  title : String
  due_date : Option String
deriving DecidableEq, Repr

/-- Modelled from the spec: Pydantic validation of the request body by the
schema `TaskCreate` (`api/schemas/task.py`, not in the source tree):
`title` required; `due_date`, if present, must parse as a real calendar
date in ISO `YYYY-MM-DD` form, rejected with 422 otherwise, before any
store operation runs. -/
def validateBody (b : TaskCreateBody) : Option TaskCreate :=
  match b.due_date with
  | none => some ⟨b.title, none⟩
  | some s =>
    match parseDate s with
    | some d => some ⟨b.title, some d⟩
    | none => none

/-! ## Task store (`src/api/cruds/task.py`) -/

/-- `api.cruds.task.create_task`: builds a Task from the validated input,
adds it and commits; the database assigns the autoincrement primary key at
commit and `refresh` loads it back.  Returns the stored row, generated id
included. -/
def create_task (db : DB) (task_create : TaskCreate) : DB × Task :=
  let task : Task := ⟨db.nextId, task_create.title, task_create.due_date⟩
  ({ db with tasks := db.tasks ++ [task], nextId := db.nextId + 1 }, task)

/-- Modelled from the spec: Task store `get(id) -> Task | absent` — "point
lookup; returns nothing if no such id" (`api.cruds.task.get_task`, called
by the router but not in the source tree).  `SELECT ... WHERE id = ?`,
first result or absent. -/
def get_task (db : DB) (task_id : Nat) : Option Task :=
  (db.tasks.filter (fun t => t.id == task_id)).head?

/-- One element of the completion listing: `{id, title, done}`. -/
structure TaskWithDone where
  id : Nat
  title : String
  done : Bool
deriving DecidableEq, Repr

/-- Modelled from the spec: Task store `list_with_completion()` — "returns
every task; `done` is true iff a matching Done row exists (computed via
left/outer join — tasks without a Done row report `done=false`, never
omitted)" (`api.cruds.task.get_task_with_done`, called by the router but
not in the source tree). -/
def get_task_with_done (db : DB) : List TaskWithDone :=
  db.tasks.map (fun t => ⟨t.id, t.title, done_exists db t.id⟩)

/-- Modelled from the spec: Task store `update(id, input, original)` —
"mutates the title/due_date of an existing, already-fetched Task and
persists the change; returns updated record" (`api.cruds.task.update_task`,
called by the router but not in the source tree). -/
def update_task (db : DB) (task_create : TaskCreate) (original : Task) :
    DB × Task :=
  let updated : Task := ⟨original.id, task_create.title, task_create.due_date⟩
  ({ db with
      tasks := db.tasks.map (fun t => if t.id == original.id then updated else t) },
    updated)

/-- Modelled from the spec: Task store `delete(original)` — "removes the
Task row; cascades removal of its Done row if present"
(`api.cruds.task.delete_task`, not in the source tree; the cascade itself
is declared in `src/api/models/task.py` by `cascade="all, delete"` on the
`Task.done` relationship). -/
def delete_task (db : DB) (original : Task) : DB :=
  { db with
      tasks := db.tasks.filter (fun t => t.id != original.id),
      dones := db.dones.filter (fun d => d.id != original.id) }

/-! ## Done store (`src/api/cruds/done.py`) -/

/-- `api.cruds.done.get_done`: `SELECT * FROM dones WHERE id = task_id`,
first result or absent. -/
def get_done (db : DB) (task_id : Nat) : Option Done :=
  (db.dones.filter (fun d => d.id == task_id)).head?

/-- `api.cruds.done.create_done`: builds `Done(id=task_id)`, adds it and
commits, returns the stored row.  No check of any kind is made: neither
that a Task with this id exists nor that no Done row is already present. -/
def create_done (db : DB) (task_id : Nat) : DB × Done :=
  let done : Done := ⟨task_id⟩
  ({ db with dones := db.dones ++ [done] }, done)

/-- `api.cruds.done.delete_done`: deletes the handed-in row (by its primary
key `id`) and commits. -/
def delete_done (db : DB) (original : Done) : DB :=
  { db with dones := db.dones.filter (fun d => d.id != original.id) }

/-! ## Request handlers (`src/api/routers/task.py` and, for the done
endpoints, modelled from the spec) -/

/-- An HTTP outcome: a 200 payload or an error status code. -/
inductive Response (α : Type) where
  | ok : α → Response α
  | err : Nat → Response α
deriving DecidableEq, Repr

/-- GET `/tasks` (`list_tasks` in `src/api/routers/task.py`): returns
`get_task_with_done`; no state change, no failure case. -/
def list_tasks (db : DB) : Response (List TaskWithDone) :=
  .ok (get_task_with_done db)

/-- POST `/tasks` (`create_task` in `src/api/routers/task.py`): the body is
validated by the Pydantic schema (modelled by `validateBody`; a validation
failure is a 422 and the handler body never runs), then
`task_crud.create_task` stores the row and the created record is echoed. -/
def create_task_handler (db : DB) (body : TaskCreateBody) :
    DB × Response Task :=
  match validateBody body with
  | none => (db, .err 422)
  | some tc =>
    let r := create_task db tc
    (r.1, .ok r.2)

/-- PUT `/task/{task_id}` (`update_task` in `src/api/routers/task.py`):
fetch the Task by id; absent → `HTTPException(404)`; otherwise
`task_crud.update_task` and respond with the updated record. -/
def update_task_handler (db : DB) (task_id : Nat) (body : TaskCreate) :
    DB × Response Task :=
  match get_task db task_id with
  | none => (db, .err 404)
  | some task =>
    let r := update_task db body task
    (r.1, .ok r.2)

/-- DELETE `/task/{task_id}` (`delete_task` in `src/api/routers/task.py`):
fetch the Task by id; absent → `HTTPException(404)`; otherwise
`task_crud.delete_task` (which cascades the Done row) and respond with no
content. -/
def delete_task_handler (db : DB) (task_id : Nat) : DB × Response Unit :=
  match get_task db task_id with
  | none => (db, .err 404)
  | some task => (delete_task db task, .ok ())

/-- Modelled from the spec: PUT `/tasks/{task_id}/done` (the done router is
not in the source tree).  "Mark Done: fetch existing Done for the task id.
If a Done already exists → fail with a conflict error — 400-class.  Else →
Done Store `create`; respond success."  The spec notes that the existence
of the underlying Task is NOT checked ("Implicit precondition not enforced
in the minimal spec"). -/
def mark_done_handler (db : DB) (task_id : Nat) : DB × Response Done :=
  match get_done db task_id with
  | some _ => (db, .err 400)
  | none =>
    let r := create_done db task_id
    (r.1, .ok r.2)

/-- Modelled from the spec: DELETE `/tasks/{task_id}/done` (the done router
is not in the source tree).  "Unmark Done: fetch existing Done for the task
id.  If absent → fail with not-found.  Else → Done Store `delete`; respond
success." -/
def unmark_done_handler (db : DB) (task_id : Nat) : DB × Response Unit :=
  match get_done db task_id with
  | none => (db, .err 404)
  | some d => (delete_done db d, .ok ())

/-- The database states reachable through the HTTP surface, starting from
the freshly created database. -/
inductive Reachable : DB → Prop where
  | empty : Reachable DB.empty
  | create (db : DB) (b : TaskCreateBody) :
      Reachable db → Reachable (create_task_handler db b).1
  | update (db : DB) (task_id : Nat) (b : TaskCreate) :
      Reachable db → Reachable (update_task_handler db task_id b).1
  | delete (db : DB) (task_id : Nat) :
      Reachable db → Reachable (delete_task_handler db task_id).1
  | mark (db : DB) (task_id : Nat) :
      Reachable db → Reachable (mark_done_handler db task_id).1
  | unmark (db : DB) (task_id : Nat) :
      Reachable db → Reachable (unmark_done_handler db task_id).1

/-- The `done` flag the listing reports for `task_id`: the flag of the first
listing entry with that id, absent when no task with that id is listed. -/
def listing_done (db : DB) (task_id : Nat) : Option Bool :=
  (((get_task_with_done db).filter (fun e => e.id == task_id)).head?).map
    (fun e => e.done)

/-- A sample database: tasks 1 and 2, task 2 marked done, next id 3. -/
def dbSample : DB := ⟨[⟨1, "A", none⟩, ⟨2, "B", none⟩], [⟨2⟩], 3⟩

/-! ## Basic lemmas about the stores -/

/-- The `done` flag is true exactly when the Done row `⟨task_id⟩` is in the
table (a Done row carries nothing but its id). -/
theorem done_exists_iff_mem (db : DB) (task_id : Nat) :
    done_exists db task_id = true ↔ (Done.mk task_id) ∈ db.dones := by
  simp only [done_exists, List.any_eq_true, beq_iff_eq]
  constructor
  · rintro ⟨d, hd, he⟩
    cases d
    cases he
    exact hd
  · intro h
    exact ⟨_, h, rfl⟩

/-- `get_done` misses exactly when no Done row with this id is present. -/
theorem get_done_none_iff (db : DB) (task_id : Nat) :
    get_done db task_id = none ↔ done_exists db task_id = false := by
  simp [get_done, done_exists, List.head?_eq_none_iff, List.filter_eq_nil_iff,
    List.any_eq_true]

/-- A row found by `get_done` is the Done row of the requested id. -/
theorem get_done_some (db : DB) (task_id : Nat) (d : Done)
    (h : get_done db task_id = some d) : d = ⟨task_id⟩ := by
  have hmem : d ∈ db.dones.filter (fun x => x.id == task_id) := by
    unfold get_done at h
    cases hfl : db.dones.filter (fun x => x.id == task_id) with
    | nil => rw [hfl] at h; simp at h
    | cons a t =>
      rw [hfl] at h
      simp only [List.head?_cons, Option.some.injEq] at h
      rw [h]
      exact List.mem_cons_self _ _
  have := (List.mem_filter.mp hmem).2
  cases d
  simpa using this

/-- `get_task` misses exactly when no Task row with this id is present. -/
theorem get_task_none_iff (db : DB) (task_id : Nat) :
    get_task db task_id = none ↔ task_exists db task_id = false := by
  simp [get_task, task_exists, List.head?_eq_none_iff, List.filter_eq_nil_iff,
    List.any_eq_true]

/-- A row found by `get_task` bears the requested id. -/
theorem get_task_some_id (db : DB) (task_id : Nat) (t : Task)
    (h : get_task db task_id = some t) : t.id = task_id := by
  have hmem : t ∈ db.tasks.filter (fun x => x.id == task_id) := by
    unfold get_task at h
    cases hfl : db.tasks.filter (fun x => x.id == task_id) with
    | nil => rw [hfl] at h; simp at h
    | cons a l =>
      rw [hfl] at h
      simp only [List.head?_cons, Option.some.injEq] at h
      rw [h]
      exact List.mem_cons_self _ _
  have := (List.mem_filter.mp hmem).2
  simpa using this

/-- Any-filter contradiction: after filtering away the rows with a given
id, no row with that id answers `any`. -/
theorem any_filter_ne (l : List Done) (task_id : Nat) :
    (l.filter (fun d => d.id != task_id)).any (fun d => d.id == task_id)
      = false := by
  rw [List.any_eq_false]
  intro x hx
  have hne := (List.mem_filter.mp hx).2
  simp only [bne_iff_ne, ne_eq] at hne
  simp [hne]

/-- Mark-done on a not-done id: the handler appends the Done row and
answers 200. -/
theorem mark_done_not_done (db : DB) (task_id : Nat)
    (h : done_exists db task_id = false) :
    mark_done_handler db task_id
      = ({ db with dones := db.dones ++ [⟨task_id⟩] }, .ok ⟨task_id⟩) := by
  unfold mark_done_handler
  rw [(get_done_none_iff db task_id).mpr h]
  rfl

/-- Mark-done on an already-done id: the handler answers 400, state
unchanged. -/
theorem mark_done_done (db : DB) (task_id : Nat)
    (h : done_exists db task_id = true) :
    mark_done_handler db task_id = (db, .err 400) := by
  unfold mark_done_handler
  cases hg : get_done db task_id with
  | none =>
    rw [get_done_none_iff, h] at hg
    exact absurd hg (by simp)
  | some d => rfl

/-- Unmark-done on a done id: the handler removes the Done rows of that id
and answers 200. -/
theorem unmark_done_done (db : DB) (task_id : Nat)
    (h : done_exists db task_id = true) :
    unmark_done_handler db task_id
      = ({ db with dones := db.dones.filter (fun d => d.id != task_id) },
          .ok ()) := by
  unfold unmark_done_handler
  cases hg : get_done db task_id with
  | none =>
    rw [get_done_none_iff, h] at hg
    exact absurd hg (by simp)
  | some d =>
    have hd := get_done_some db task_id d hg
    subst hd
    rfl

/-- Unmark-done on a not-done id: the handler answers 404, state
unchanged. -/
theorem unmark_done_not_done (db : DB) (task_id : Nat)
    (h : done_exists db task_id = false) :
    unmark_done_handler db task_id = (db, .err 404) := by
  unfold unmark_done_handler
  rw [(get_done_none_iff db task_id).mpr h]

/-- The listing's flag for a present task id is exactly `done_exists`,
stated over an arbitrary task list and flag function. -/
theorem filter_map_flag (ts : List Task) (g : Nat → Bool) (task_id : Nat)
    (h : ts.any (fun t => t.id == task_id) = true) :
    ((ts.map (fun t => TaskWithDone.mk t.id t.title (g t.id))).filter
        (fun e => e.id == task_id)).head?.map (fun e => e.done)
      = some (g task_id) := by
  induction ts with
  | nil => simp at h
  | cons t ts ih =>
    by_cases hid : t.id = task_id
    · subst hid
      simp
    · simp only [List.any_cons] at h
      have h' : ts.any (fun t => t.id == task_id) = true := by
        simpa [hid] using h
      have hpt : ((TaskWithDone.mk t.id t.title (g t.id)).id == task_id)
          = false := by
        simp [hid]
      simp only [List.map_cons, List.filter_cons, hpt, Bool.false_eq_true,
        if_false]
      exact ih h'

/-- The listing reports, for any stored task id, exactly the presence of
its Done row. -/
theorem listing_done_eq_done_exists (db : DB) (task_id : Nat)
    (h : task_exists db task_id = true) :
    listing_done db task_id = some (done_exists db task_id) :=
  filter_map_flag db.tasks (fun i => done_exists db i) task_id h

/-! ## The claims -/

/-- C1: The list operation returns every task in the store — same length as
the tasks table and the i-th entry comes from the i-th task, so no task is
ever omitted — and for each task the returned `done` flag is true if and
only if a Done row with the same id exists (tasks without a Done row are
reported with `done=false`). -/
theorem list_with_completion_correct (db : DB) (i : Nat) (t : Task)
    (h : db.tasks[i]? = some t) :
    (get_task_with_done db).length = db.tasks.length ∧
    (get_task_with_done db)[i]? = some ⟨t.id, t.title, done_exists db t.id⟩ ∧
    (done_exists db t.id = true ↔ (Done.mk t.id) ∈ db.dones) := by
  refine ⟨by simp [get_task_with_done], ?_, done_exists_iff_mem db t.id⟩
  simp [get_task_with_done, List.getElem?_map, h]

/-- Witness for C1: in `dbSample`, entry 1 of the listing is task 2 with
`done=true` because the Done row `⟨2⟩` exists. -/
theorem list_with_completion_correct_witness :
    dbSample.tasks[1]? = some ⟨2, "B", none⟩ ∧
    ((get_task_with_done dbSample).length = dbSample.tasks.length ∧
      (get_task_with_done dbSample)[1]? = some ⟨2, "B", done_exists dbSample 2⟩ ∧
      (done_exists dbSample 2 = true ↔ (Done.mk 2) ∈ dbSample.dones)) :=
  ⟨by decide, list_with_completion_correct dbSample 1 ⟨2, "B", none⟩ (by decide)⟩

/-- C2: PUT `/tasks/{id}/done` — when a Done row for the id already exists
the handler answers with the 400 conflict and the state is unchanged
(the handler returns the input database); when no Done row exists it
appends the Done row (tasks and the id counter untouched) and answers 200
with the created row. -/
theorem mark_done_conflict_or_create (db : DB) (task_id : Nat) :
    (done_exists db task_id = true →
      mark_done_handler db task_id = (db, .err 400)) ∧
    (done_exists db task_id = false →
      (mark_done_handler db task_id).1.dones = db.dones ++ [⟨task_id⟩] ∧
      (mark_done_handler db task_id).1.tasks = db.tasks ∧
      (mark_done_handler db task_id).1.nextId = db.nextId ∧
      (mark_done_handler db task_id).2 = .ok ⟨task_id⟩ ∧
      done_exists (mark_done_handler db task_id).1 task_id = true) := by
  unfold mark_done_handler
  cases hg : get_done db task_id with
  | none =>
    have hf := (get_done_none_iff db task_id).mp hg
    constructor
    · intro ht
      rw [hf] at ht
      exact absurd ht (by simp)
    · intro _
      simp [create_done, done_exists]
  | some d =>
    constructor
    · intro _
      rfl
    · intro hf
      have hn : get_done db task_id = none := (get_done_none_iff db task_id).mpr hf
      rw [hg] at hn
      exact absurd hn (by simp)

/-- Witness for C2: in `dbSample`, marking task 2 (already done) yields 400
with the state unchanged; marking task 1 (not done) appends `⟨1⟩` and
yields 200. -/
theorem mark_done_conflict_or_create_witness :
    (done_exists dbSample 2 = true ∧
      mark_done_handler dbSample 2 = (dbSample, .err 400)) ∧
    (done_exists dbSample 1 = false ∧
      (mark_done_handler dbSample 1).1.dones = dbSample.dones ++ [⟨1⟩] ∧
      (mark_done_handler dbSample 1).1.tasks = dbSample.tasks ∧
      (mark_done_handler dbSample 1).1.nextId = dbSample.nextId ∧
      (mark_done_handler dbSample 1).2 = .ok ⟨1⟩ ∧
      done_exists (mark_done_handler dbSample 1).1 1 = true) :=
  ⟨⟨by decide, (mark_done_conflict_or_create dbSample 2).1 (by decide)⟩,
    ⟨by decide, (mark_done_conflict_or_create dbSample 1).2 (by decide)⟩⟩

/-- C3: DELETE `/tasks/{id}/done` — when no Done row for the id exists the
handler answers 404 and the state is unchanged; when one exists it removes
exactly the Done rows of that id (tasks and the counter untouched), answers
200, and afterwards the Done row is gone. -/
theorem unmark_done_not_found_or_delete (db : DB) (task_id : Nat) :
    (done_exists db task_id = false →
      unmark_done_handler db task_id = (db, .err 404)) ∧
    (done_exists db task_id = true →
      (unmark_done_handler db task_id).1.dones
          = db.dones.filter (fun d => d.id != task_id) ∧
      (unmark_done_handler db task_id).1.tasks = db.tasks ∧
      (unmark_done_handler db task_id).1.nextId = db.nextId ∧
      (unmark_done_handler db task_id).2 = .ok () ∧
      done_exists (unmark_done_handler db task_id).1 task_id = false) := by
  unfold unmark_done_handler
  cases hg : get_done db task_id with
  | none =>
    have hf := (get_done_none_iff db task_id).mp hg
    refine ⟨fun _ => rfl, fun ht => ?_⟩
    rw [hf] at ht
    exact absurd ht (by simp)
  | some d =>
    have hd := get_done_some db task_id d hg
    subst hd
    constructor
    · intro hf
      have hn : get_done db task_id = none := (get_done_none_iff db task_id).mpr hf
      rw [hg] at hn
      exact absurd hn (by simp)
    · intro _
      refine ⟨rfl, rfl, rfl, rfl, ?_⟩
      simp only [delete_done, done_exists]
      rw [List.any_eq_false]
      intro x hx
      have hne := (List.mem_filter.mp hx).2
      simp only [bne_iff_ne, ne_eq] at hne
      simp [hne]

/-- Witness for C3: in `dbSample`, unmarking task 1 (not done) yields 404
with the state unchanged; unmarking task 2 (done) removes the row `⟨2⟩` and
yields 200. -/
theorem unmark_done_not_found_or_delete_witness :
    (done_exists dbSample 1 = false ∧
      unmark_done_handler dbSample 1 = (dbSample, .err 404)) ∧
    (done_exists dbSample 2 = true ∧
      (unmark_done_handler dbSample 2).1.dones
          = dbSample.dones.filter (fun d => d.id != 2) ∧
      (unmark_done_handler dbSample 2).1.tasks = dbSample.tasks ∧
      (unmark_done_handler dbSample 2).1.nextId = dbSample.nextId ∧
      (unmark_done_handler dbSample 2).2 = .ok () ∧
      done_exists (unmark_done_handler dbSample 2).1 2 = false) :=
  ⟨⟨by decide, (unmark_done_not_found_or_delete dbSample 1).1 (by decide)⟩,
    ⟨by decide, (unmark_done_not_found_or_delete dbSample 2).2 (by decide)⟩⟩

/-- C7: the store-level create operation inserts exactly one new Task row
(appended to the table, length grows by one, the Done table and nothing
else touched), assigns it the generated id (the next value of the
autoincrement counter, which advances by one), and returns the full record
including that id. -/
theorem create_task_inserts_one (db : DB) (tc : TaskCreate) :
    (create_task db tc).1.tasks
        = db.tasks ++ [⟨db.nextId, tc.title, tc.due_date⟩] ∧
    (create_task db tc).1.tasks.length = db.tasks.length + 1 ∧
    (create_task db tc).2 = ⟨db.nextId, tc.title, tc.due_date⟩ ∧
    (create_task db tc).1.dones = db.dones ∧
    (create_task db tc).1.nextId = db.nextId + 1 :=
  ⟨rfl, by simp [create_task], rfl, rfl, rfl⟩

/-- C9: the store-level `create_done` unconditionally inserts the Done row
`⟨task_id⟩` and returns it — the equations hold for every database state,
in particular when no Task with that id exists (an orphan marker) and when
a Done row with that id is already present; no check of any kind is
performed. -/
theorem create_done_no_checks (db : DB) (task_id : Nat) :
    (create_done db task_id).1.dones = db.dones ++ [⟨task_id⟩] ∧
    (create_done db task_id).2 = ⟨task_id⟩ ∧
    (create_done db task_id).1.tasks = db.tasks ∧
    (create_done db task_id).1.nextId = db.nextId ∧
    done_exists (create_done db task_id).1 task_id = true :=
  ⟨rfl, rfl, rfl, rfl, by simp [create_done, done_exists]⟩

/-- C4 counterexample: the state reached from the fresh database by a
single PUT `/tasks/1/done` is reachable through the HTTP surface, carries
the Done row for id 1, yet has no Task row with id 1 — so it is not true
that in every reachable state a Done row implies a Task row of the same id
(the mark-done handler never checks that the Task exists). -/
theorem done_without_task_reachable :
    Reachable (mark_done_handler DB.empty 1).1 ∧
    done_exists (mark_done_handler DB.empty 1).1 1 = true ∧
    task_exists (mark_done_handler DB.empty 1).1 1 = false ∧
    get_task (mark_done_handler DB.empty 1).1 1 = none ∧
    ¬ (∀ db : DB, Reachable db →
        ∀ i : Nat, done_exists db i = true → task_exists db i = true) := by
  refine ⟨Reachable.mark DB.empty 1 Reachable.empty, by decide, by decide,
    by decide, ?_⟩
  intro hall
  have := hall _ (Reachable.mark DB.empty 1 Reachable.empty) 1 (by decide)
  exact absurd this (by decide)

/-- C4 (amended): deleting an existing Task removes its Task row and
cascades away its Done rows, so that afterwards a get on either returns
absent, and the handler answers success.  (The global invariant "a Done row
never exists without a Task row in every reachable state" fails — see the
counterexample — because mark-done on a nonexistent task id creates an
orphan Done; task deletion itself never leaves a Done of the deleted id
behind.) -/
theorem delete_task_cascades (db : DB) (task_id : Nat)
    (h : task_exists db task_id = true) :
    (delete_task_handler db task_id).2 = .ok () ∧
    (delete_task_handler db task_id).1.tasks
        = db.tasks.filter (fun t => t.id != task_id) ∧
    (delete_task_handler db task_id).1.dones
        = db.dones.filter (fun d => d.id != task_id) ∧
    get_task (delete_task_handler db task_id).1 task_id = none ∧
    get_done (delete_task_handler db task_id).1 task_id = none := by
  unfold delete_task_handler
  cases hg : get_task db task_id with
  | none =>
    rw [get_task_none_iff, h] at hg
    exact absurd hg (by simp)
  | some t =>
    have hid := get_task_some_id db task_id t hg
    subst hid
    refine ⟨rfl, rfl, rfl, ?_, ?_⟩
    · simp [get_task, delete_task, List.filter_filter,
        List.head?_eq_none_iff, List.filter_eq_nil_iff]
    · simp [get_done, delete_task, List.filter_filter,
        List.head?_eq_none_iff, List.filter_eq_nil_iff]

/-- Witness for C4 (amended): deleting task 2 of `dbSample` removes the
Task row and its Done row; both gets come back absent. -/
theorem delete_task_cascades_witness :
    task_exists dbSample 2 = true ∧
    ((delete_task_handler dbSample 2).2 = .ok () ∧
      (delete_task_handler dbSample 2).1.tasks
          = dbSample.tasks.filter (fun t => t.id != 2) ∧
      (delete_task_handler dbSample 2).1.dones
          = dbSample.dones.filter (fun d => d.id != 2) ∧
      get_task (delete_task_handler dbSample 2).1 2 = none ∧
      get_done (delete_task_handler dbSample 2).1 2 = none) :=
  ⟨by decide, delete_task_cascades dbSample 2 (by decide)⟩

/-- C5 counterexample: after PUT `/tasks/1/done` on the fresh database (an
orphan Done row `⟨1⟩`, a reachable state), creating a task succeeds with
generated id 1, yet the listing immediately reports `done=true` for it —
not `done=false` as the claim states for every task immediately after
creation. -/
theorem create_then_list_reports_done :
    Reachable (mark_done_handler DB.empty 1).1 ∧
    (create_task_handler (mark_done_handler DB.empty 1).1 ⟨"X", none⟩).2
        = .ok ⟨1, "X", none⟩ ∧
    listing_done
        (create_task_handler (mark_done_handler DB.empty 1).1 ⟨"X", none⟩).1 1
      = some true :=
  ⟨Reachable.mark DB.empty 1 Reachable.empty, by decide, by decide⟩

/-- C5 (amended): round-trip of the completion flag, provided no Done row
already carries the id about to be generated (no orphan marker left behind
by a mark-done on a nonexistent task): immediately after creation the
listing reports
`done=false` for the new task; after a successful mark-done (200) it
reports `done=true`; after a subsequent successful unmark-done (200) it
reports `done=false` again. -/
theorem round_trip_done_flag (db : DB) (tc : TaskCreate)
    (h1 : done_exists db db.nextId = false) :
    listing_done (create_task db tc).1 db.nextId = some false ∧
    (mark_done_handler (create_task db tc).1 db.nextId).2 = .ok ⟨db.nextId⟩ ∧
    listing_done (mark_done_handler (create_task db tc).1 db.nextId).1
        db.nextId = some true ∧
    (unmark_done_handler
        (mark_done_handler (create_task db tc).1 db.nextId).1 db.nextId).2
      = .ok () ∧
    listing_done
        ((unmark_done_handler
            (mark_done_handler (create_task db tc).1 db.nextId).1
          db.nextId).1) db.nextId = some false := by
  have te1 : task_exists (create_task db tc).1 db.nextId = true := by
    simp [task_exists, create_task]
  have de1 : done_exists (create_task db tc).1 db.nextId = false := h1
  have hmark := mark_done_not_done (create_task db tc).1 db.nextId de1
  have te2 : task_exists (mark_done_handler (create_task db tc).1 db.nextId).1
      db.nextId = true := by
    rw [hmark]
    exact te1
  have de2 : done_exists (mark_done_handler (create_task db tc).1 db.nextId).1
      db.nextId = true := by
    rw [hmark]
    simp [done_exists]
  have hunmark := unmark_done_done
    (mark_done_handler (create_task db tc).1 db.nextId).1 db.nextId de2
  refine ⟨?_, ?_, ?_, ?_, ?_⟩
  · rw [listing_done_eq_done_exists _ _ te1, de1]
  · rw [hmark]
  · rw [listing_done_eq_done_exists _ _ te2, de2]
  · rw [hunmark]
  · rw [hunmark]
    have te3 : task_exists
        ({ (mark_done_handler (create_task db tc).1 db.nextId).1 with
            dones := ((mark_done_handler (create_task db tc).1
              db.nextId).1).dones.filter
              (fun d => d.id != db.nextId) }) db.nextId = true := te2
    rw [listing_done_eq_done_exists _ _ te3]
    have de3 : done_exists
        ({ (mark_done_handler (create_task db tc).1 db.nextId).1 with
            dones := ((mark_done_handler (create_task db tc).1
              db.nextId).1).dones.filter
              (fun d => d.id != db.nextId) }) db.nextId = false :=
      any_filter_ne _ db.nextId
    rw [de3]

/-- Witness for C5 (amended): the full round trip on the fresh database
with task "X". -/
theorem round_trip_done_flag_witness :
    done_exists DB.empty DB.empty.nextId = false ∧
    (listing_done (create_task DB.empty ⟨"X", none⟩).1 DB.empty.nextId
        = some false ∧
      (mark_done_handler (create_task DB.empty ⟨"X", none⟩).1
          DB.empty.nextId).2 = .ok ⟨DB.empty.nextId⟩ ∧
      listing_done (mark_done_handler (create_task DB.empty ⟨"X", none⟩).1
          DB.empty.nextId).1 DB.empty.nextId = some true ∧
      (unmark_done_handler
          (mark_done_handler (create_task DB.empty ⟨"X", none⟩).1
            DB.empty.nextId).1 DB.empty.nextId).2 = .ok () ∧
      listing_done
          ((unmark_done_handler
              (mark_done_handler (create_task DB.empty ⟨"X", none⟩).1
                DB.empty.nextId).1 DB.empty.nextId).1) DB.empty.nextId
        = some false) :=
  ⟨by decide, round_trip_done_flag DB.empty ⟨"X", none⟩ (by decide)⟩

/-- C6: creating a task with an absent `due_date`, or with a `due_date`
string that parses as a real ISO `YYYY-MM-DD` calendar date, succeeds (200)
and stores the row; the strings `"2024-12-32"`, `"2024/12/01"` and
`"20241201"` are each rejected with 422 and the handler returns the input
database untouched — the validation failure happens before any store
operation runs. -/
theorem due_date_validation (db : DB) (title : String) (s : String) (d : Date)
    (hs : parseDate s = some d) :
    (create_task_handler db ⟨title, some s⟩).2
        = .ok ⟨db.nextId, title, some d⟩ ∧
    (create_task_handler db ⟨title, some s⟩).1.tasks
        = db.tasks ++ [⟨db.nextId, title, some d⟩] ∧
    (create_task_handler db ⟨title, none⟩).2 = .ok ⟨db.nextId, title, none⟩ ∧
    (create_task_handler db ⟨title, none⟩).1.tasks
        = db.tasks ++ [⟨db.nextId, title, none⟩] ∧
    (create_task_handler db ⟨title, some "2024-12-32"⟩) = (db, .err 422) ∧
    (create_task_handler db ⟨title, some "2024/12/01"⟩) = (db, .err 422) ∧
    (create_task_handler db ⟨title, some "20241201"⟩) = (db, .err 422) := by
  have hr1 : parseDate "2024-12-32" = none := by decide
  have hr2 : parseDate "2024/12/01" = none := by decide
  have hr3 : parseDate "20241201" = none := by decide
  refine ⟨?_, ?_, ?_, ?_, ?_, ?_, ?_⟩ <;>
    simp [create_task_handler, validateBody, hs, hr1, hr2, hr3, create_task]

/-- Witness for C6: `"2024-12-01"` parses, so creating task "X" with it on
the fresh database succeeds, while the three malformed strings are
rejected with 422 and no state change. -/
theorem due_date_validation_witness :
    parseDate "2024-12-01" = some ⟨2024, 12, 1⟩ ∧
    ((create_task_handler DB.empty ⟨"X", some "2024-12-01"⟩).2
        = .ok ⟨DB.empty.nextId, "X", some ⟨2024, 12, 1⟩⟩ ∧
      (create_task_handler DB.empty ⟨"X", some "2024-12-01"⟩).1.tasks
        = DB.empty.tasks ++ [⟨DB.empty.nextId, "X", some ⟨2024, 12, 1⟩⟩] ∧
      (create_task_handler DB.empty ⟨"X", none⟩).2
        = .ok ⟨DB.empty.nextId, "X", none⟩ ∧
      (create_task_handler DB.empty ⟨"X", none⟩).1.tasks
        = DB.empty.tasks ++ [⟨DB.empty.nextId, "X", none⟩] ∧
      (create_task_handler DB.empty ⟨"X", some "2024-12-32"⟩)
        = (DB.empty, .err 422) ∧
      (create_task_handler DB.empty ⟨"X", some "2024/12/01"⟩)
        = (DB.empty, .err 422) ∧
      (create_task_handler DB.empty ⟨"X", some "20241201"⟩)
        = (DB.empty, .err 422)) :=
  ⟨by decide,
    due_date_validation DB.empty "X" "2024-12-01" ⟨2024, 12, 1⟩ (by decide)⟩

/-- Updating every task of the given id rewrites it to the new record, and
looking the id up afterwards yields that record. -/
theorem filter_map_update (ts : List Task) (task_id : Nat) (b : TaskCreate)
    (h : ts.any (fun t => t.id == task_id) = true) :
    ((ts.map (fun t => if t.id == task_id
          then (⟨task_id, b.title, b.due_date⟩ : Task) else t)).filter
        (fun t => t.id == task_id)).head?
      = some ⟨task_id, b.title, b.due_date⟩ := by
  induction ts with
  | nil => simp at h
  | cons t ts ih =>
    by_cases hid : t.id = task_id
    · simp [hid]
    · simp only [List.any_cons] at h
      have h' : ts.any (fun t => t.id == task_id) = true := by
        simpa [hid] using h
      have hpt : ((if t.id == task_id
          then (⟨task_id, b.title, b.due_date⟩ : Task) else t).id == task_id)
          = false := by
        simp [hid]
      simp only [List.map_cons, List.filter_cons, hpt, Bool.false_eq_true,
        if_false]
      exact ih h'

/-- C8: PUT `/task/{id}` — when no Task with the id exists the handler
answers 404 and the state is unchanged (the input database is returned);
otherwise it persists the new title/due_date (a subsequent get returns the
updated record, the Done table and the id counter untouched) and answers
200 with the updated record. -/
theorem update_task_found_or_404 (db : DB) (task_id : Nat)
    (body : TaskCreate) :
    (task_exists db task_id = false →
      update_task_handler db task_id body = (db, .err 404)) ∧
    (task_exists db task_id = true →
      (update_task_handler db task_id body).2
          = .ok ⟨task_id, body.title, body.due_date⟩ ∧
      get_task (update_task_handler db task_id body).1 task_id
          = some ⟨task_id, body.title, body.due_date⟩ ∧
      (update_task_handler db task_id body).1.dones = db.dones ∧
      (update_task_handler db task_id body).1.nextId = db.nextId) := by
  unfold update_task_handler
  cases hg : get_task db task_id with
  | none =>
    have hf := (get_task_none_iff db task_id).mp hg
    refine ⟨fun _ => rfl, fun ht => ?_⟩
    rw [hf] at ht
    exact absurd ht (by simp)
  | some t =>
    have hid := get_task_some_id db task_id t hg
    subst hid
    constructor
    · intro hf
      rw [← get_task_none_iff, hg] at hf
      exact absurd hf (by simp)
    · intro ht
      refine ⟨rfl, ?_, rfl, rfl⟩
      exact filter_map_update db.tasks t.id body ht

/-- Witness for C8: in `dbSample`, updating task 99 answers 404 and updating
task 1 to title "C" persists and echoes the new record. -/
theorem update_task_found_or_404_witness :
    (task_exists dbSample 99 = false ∧
      update_task_handler dbSample 99 ⟨"C", none⟩ = (dbSample, .err 404)) ∧
    (task_exists dbSample 1 = true ∧
      (update_task_handler dbSample 1 ⟨"C", none⟩).2 = .ok ⟨1, "C", none⟩ ∧
      get_task (update_task_handler dbSample 1 ⟨"C", none⟩).1 1
          = some ⟨1, "C", none⟩ ∧
      (update_task_handler dbSample 1 ⟨"C", none⟩).1.dones = dbSample.dones ∧
      (update_task_handler dbSample 1 ⟨"C", none⟩).1.nextId
          = dbSample.nextId) :=
  ⟨⟨by decide, (update_task_found_or_404 dbSample 99 ⟨"C", none⟩).1 (by decide)⟩,
    ⟨by decide, (update_task_found_or_404 dbSample 1 ⟨"C", none⟩).2 (by decide)⟩⟩

end ToDo
